import Mathlib

/-!
Shallow embedding of the quoneq multi-protocol network client toolkit
(HTTP, FTP, SMTP, Telnet, Tor clients layered over a black-box transport
engine).  Pure parsing and payload-construction routines are translated
directly from `src/quoneq/*.cpp`; the transport engine (libcurl) is
modelled as an explicit environment (`CurlEnv`) mapping a fully
configured request to a single exchange outcome, and C++ exceptions are
modelled with `Except`.
-/

namespace Quoneq

/-- C++ `std::isspace` in the default locale: the six standard
whitespace characters. -/
def cppIsSpace (c : Char) : Bool :=
  c = ' ' || c = '\t' || c = '\n' || c = '\x0b' || c = '\x0c' || c = '\r'

/-- Split a character list at every character satisfying `p`, keeping
(possibly empty) segments. -/
def charSplitP (p : Char → Bool) : List Char → List (List Char)
  | [] => [[]]
  | c :: rest =>
      if p c then [] :: charSplitP p rest
      else
        match charSplitP p rest with
        | s :: ss => (c :: s) :: ss
        | [] => [[c]]

/-- Whitespace-delimited extraction of all tokens from a string, as a
chain of `istream >> token` reads produces them: maximal runs of
non-whitespace characters, in order. -/
def cppTokens (s : String) : List String :=
  ((charSplitP cppIsSpace s.data).map List.asString).filter (fun t => t ≠ "")

/-- Numeric value of a digit run (base 10). -/
def digitsVal (ds : List Char) : Nat :=
  ds.foldl (fun acc d => 10 * acc + (d.toNat - '0'.toNat)) 0

/-- C++ `std::stoi`: skip leading whitespace, read an optional sign and
a non-empty digit run; `std::invalid_argument` when no digits are
present, `std::out_of_range` when the value does not fit in `int`.
Exceptions are modelled as `Except.error`. -/
def cppStoi (s : String) : Except String Int :=
  let cs := s.data.dropWhile cppIsSpace
  let signAndRest : Int × List Char :=
    match cs with
    | '+' :: rest => (1, rest)
    | '-' :: rest => (-1, rest)
    | _ => (1, cs)
  let digits := signAndRest.2.takeWhile Char.isDigit
  if digits = [] then Except.error "stoi: invalid argument"
  else
    let v : Int := signAndRest.1 * (digitsVal digits : Nat)
    if v < -(2 ^ 31) ∨ 2 ^ 31 ≤ v then Except.error "stoi: out of range"
    else Except.ok v

/-- `static_cast<uint16_t>` applied to an `int` value: reduction modulo
`2^16` (two's-complement wraparound for negatives). -/
def cppToUInt16 (v : Int) : Nat :=
  (v % 65536).toNat

/-- `static_cast<uint16_t>` applied to a non-negative `long` value. -/
def cppNatToUInt16 (v : Nat) : Nat :=
  v % 65536

/-- `std::string::npos`, the all-ones `size_t`. -/
def NPOS : Nat := 2 ^ 64 - 1

/-- Collapse an optional position to the `size_t` value C++ `find`
returns: the position itself, or `npos` when absent. -/
def optPos : Option Nat → Nat
  | some p => p
  | none => NPOS

/-- Index of the first position in `hay` at which the whole of
`needle` occurs (character positions; the sources only ever search
ASCII data). -/
def strFindSub (needle : List Char) : List Char → Option Nat
  | [] => if needle = [] then some 0 else none
  | c :: rest =>
      if (c :: rest).take needle.length = needle then some 0
      else (strFindSub needle rest).map (fun j => j + 1)

/-- `std::string::find(needle)`. -/
def cppFind (s needle : String) : Option Nat :=
  strFindSub needle.data s.data

/-- `std::string::find(c, start)`. -/
def cppFindChar (s : String) (c : Char) (start : Nat) : Option Nat :=
  match (s.data.drop start).findIdx? (fun x => x = c) with
  | some j => some (start + j)
  | none => none

/-- `std::string::substr(pos, cnt)` for the in-range positions the
sources reach: the (at most) `cnt` characters starting at `pos`. -/
def cppSubstr (s : String) (pos cnt : Nat) : String :=
  ((s.data.drop pos).take cnt).asString

/-- `substr(pos)` — everything from `pos` to the end. -/
def cppSubstrFrom (s : String) (pos : Nat) : String :=
  (s.data.drop pos).asString

/-- `quoneq_http_response` (include/quoneq/http.hpp): status code,
status text, error message, body, header map and cookie map.  The
`std::map`s are modelled as association lists whose insert replaces an
existing binding for the key. -/
structure HttpResponse where
  status : Nat := 0
  statusType : String := ""
  errorMessage : String := ""
  content : String := ""
  header : List (String × String) := []
  cookies : List (String × String) := []
deriving Repr, DecidableEq

/-- `map[k] = v`: replace the binding for `k` if present, otherwise add
it (iteration order of `std::map` is not relied upon by any claim). -/
def mapInsert (m : List (String × String)) (k v : String) :
    List (String × String) :=
  match m with
  | [] => [(k, v)]
  | (k', v') :: rest =>
      if k' = k then (k, v) :: rest else (k', v') :: mapInsert rest k v

/-- Strip one trailing `'\n'` and then one trailing `'\r'` from a
header value, as the two `pop_back` conditionals do. -/
def stripTrailingNewline (v : String) : String :=
  let v := if v ≠ "" ∧ v.back = '\n' then (v.data.dropLast).asString else v
  if v ≠ "" ∧ v.back = '\r' then (v.data.dropLast).asString else v

/-- `quoneq_http_client::header_callback` (src/quoneq/http.cpp) on one
delivered header line.  A line starting with `"HTTP/"` is read as
`protocol status_code status_text` with `operator>>` and the status is
stored through `std::stoi` (which may throw — modelled as
`Except.error`); independently, a line containing `": "` is split into
key and value, with `Set-Cookie` values parsed further using C++
`size_t` position arithmetic (`npos` wraparound included). -/
def header_callback (line : String) (response : HttpResponse) :
    Except String HttpResponse := do
  let response ←
    if optPos (cppFind line "HTTP/") = 0 then do
      let toks := cppTokens line
      let status_code := toks.getD 1 ""
      let status_text := toks.getD 2 ""
      let code ← cppStoi status_code
      pure { response with
              statusType := status_text
              status := cppToUInt16 code }
    else pure response
  match cppFind line ": " with
  | none => pure response
  | some delimiter_pos =>
      let key := cppSubstr line 0 delimiter_pos
      let value := cppSubstrFrom line (delimiter_pos + 2)
      let value := stripTrailingNewline value
      if key = "Set-Cookie" then
        let semicolon_pos := optPos (cppFindChar value ';' 0)
        let eq_pos := optPos (cppFindChar value '=' 0)
        let cookie_name := cppSubstr value 0 eq_pos
        let cookie_value :=
          cppSubstr value ((eq_pos + 1) % 2 ^ 64)
            ((semicolon_pos + 2 ^ 64 - (eq_pos + 1)) % 2 ^ 64)
        pure { response with
                cookies := mapInsert response.cookies cookie_name cookie_value }
      else
        pure { response with header := mapInsert response.header key value }

/-- Feed a sequence of raw header lines through `header_callback` in
arrival order. -/
def processHeaderLines (lines : List String) (response : HttpResponse) :
    Except String HttpResponse :=
  match lines with
  | [] => Except.ok response
  | l :: rest => do processHeaderLines rest (← header_callback l response)

/-! ## Transport engine model

The libcurl collaborator is a black box: given a fully configured
request it performs one exchange and yields raw bytes, a success flag
and an error description.  `CurlRequest` records the options each
operation sets; `CurlOutcome` is what one `curl_easy_perform` run
delivers back (the header lines fed to the header callback, the body
bytes fed to the write callback, the `CURLINFO_RESPONSE_CODE` value,
the elapsed milliseconds and, on failure, the `curl_easy_strerror`
text).  `CurlEnv.initOk` models whether `curl_easy_init` succeeds. -/

structure CurlRequest where
  url : String := ""
  proxy : String := ""
  username : String := ""
  password : String := ""
  nobody : Bool := false
  dirlistonly : Bool := false
  httpHeaders : List String := []
  cookieStr : String := ""
  quote : List String := []
  telnetOptions : List String := []
  timeout : Int := 0
  mailFrom : String := ""
  mailRcpt : List String := []
  uploadPayload : Option String := none
  mimeFiles : List String := []
deriving Repr, DecidableEq

structure CurlOutcome where
  ok : Bool := true
  errorStr : String := "curl error"
  headerLines : List String := []
  body : String := ""
  responseCode : Nat := 0
  durationMs : Nat := 0
deriving Repr, DecidableEq

structure CurlEnv where
  initOk : Bool
  run : CurlRequest → CurlOutcome

/-! ## FTP listing engine (src/quoneq/ftp.cpp) -/

/-- `quoneq_ftp_response` (include/quoneq/ftp.hpp). -/
structure FtpResponse where
  responseCode : Nat := 0
  errorMessage : String := ""
  content : String := ""
  list : List String := []
deriving Repr, DecidableEq

/-- `quoneq_ftp_client::extract_ftp_path`: the substring starting at
the first `'/'` found at or after the end of the first occurrence of
`"ftp://"`; empty when either search fails. -/
def extract_ftp_path (ftp_url : String) : String :=
  match cppFind ftp_url "ftp://" with
  | none => ""
  | some pos =>
      match cppFindChar ftp_url '/' (pos + 6) with
      | none => ""
      | some pos' => cppSubstrFrom ftp_url pos'

/-- `quoneq_ftp_client::split_str`: `std::getline` on `delimiter`,
keeping only non-empty segments. -/
def split_str (s : String) (delimiter : Char) : List String :=
  ((charSplitP (fun c => c = delimiter) s.data).map List.asString).filter
    (fun item => item ≠ "")

/-- `quoneq_ftp_client::parse_ftp_list_line`: empty line gives
`(false, "")`; otherwise the directory flag is `line[0] == 'd'` and the
name is token 8 with all later tokens appended behind single spaces
when at least 9 tokens exist, the last token when 1–8 exist, and empty
when the line is all whitespace. -/
def parse_ftp_list_line (line : String) : Bool × String :=
  if line = "" then (false, "")
  else
    let isDir := line.front = 'd'
    let tokens := cppTokens line
    let name :=
      if 9 ≤ tokens.length then
        (tokens.drop 9).foldl (fun acc t => acc ++ " " ++ t) (tokens.getD 8 "")
      else if tokens ≠ [] then tokens.getLastD ""
      else ""
    (isDir, name)

/-- `quoneq_ftp_client::get_list_detail`: one full (detailed) listing
exchange; the raw body split on newlines on success, no lines when the
handle cannot initialize or the exchange fails. -/
def get_list_detail (env : CurlEnv) (ftp_url username password : String) :
    List String :=
  if env.initOk = false then []
  else
    let out := env.run { url := ftp_url, username := username, password := password }
    if out.ok then split_str out.body '\n' else []

/-- The single-`'/'` path join of `list_recursive_helper`: append `"/"`
to the current URL only when its last character is not already `'/'`,
then append the entry name. -/
def ftp_join (ftp_url name : String) : String :=
  (if ftp_url.back ≠ '/' then ftp_url ++ "/" else ftp_url) ++ name

/-- `quoneq_ftp_client::list_recursive_helper` (src/quoneq/ftp.cpp):
list the current URL, then fold over the returned lines in order —
skip entries named `"."`, `".."` or with an empty parsed name, append
the joined full path of every retained entry to the accumulator, and
recurse into a directory entry immediately, before the next sibling
line.  The C++ recursion carries no bound; `fuel` caps the recursion
depth so the embedding is total (every terminating C++ run is
reproduced by any sufficiently large `fuel`). -/
def list_recursive_helper (env : CurlEnv) (username password : String) :
    Nat → String → List String → List String
  | 0, _, accum => accum
  | fuel + 1, ftp_url, accum =>
      (get_list_detail env ftp_url username password).foldl
        (fun acc line =>
          let parsed := parse_ftp_list_line line
          let name := parsed.2
          if name = "." ∨ name = ".." ∨ name = "" then acc
          else
            let fullPath := ftp_join ftp_url name
            let acc' := acc ++ [fullPath]
            if parsed.1 then
              list_recursive_helper env username password fuel fullPath acc'
            else acc')
        accum

/-- Modelled from the spec's words (§4.3 `listDirectoryRecursive`), for
comparison with `list_recursive_helper`: each line of the server
listing contributes nothing when its name is `"."`, `".."` or empty,
and otherwise contributes its single-slash-joined full path followed
immediately (when the entry is a directory) by the recursively listed
subtree, before the next sibling line — the depth-first order in which
lines were returned by the server. -/
def dfs_spec (listing : String → List String) : Nat → String → List String
  | 0, _ => []
  | fuel + 1, url =>
      (listing url).flatMap
        (fun line =>
          let parsed := parse_ftp_list_line line
          let name := parsed.2
          if name = "." ∨ name = ".." ∨ name = "" then []
          else
            ftp_join url name ::
              (if parsed.1 then dfs_spec listing fuel (ftp_join url name)
               else []))

/-! ## SMTP payload builder and pull-based streaming
(src/quoneq/smtp.cpp) -/

/-- `quoneq_smtp_client::upload_context` (include/quoneq/smtp.hpp):
the in-memory email payload (a byte string) and the read cursor.  The
byte content is abstract (`List UInt8`), exactly as `memcpy` treats
it. -/
structure upload_context where
  bytes_read : Nat
  payload : List UInt8
deriving Repr, DecidableEq

/-- `quoneq_smtp_client::payload_source`: one pull-callback invocation
with buffer capacity `size * nmemb`.  It copies
`min(payload.size() - bytes_read, buffer_size)` bytes starting at the
cursor, advances the cursor by that amount and returns the copied
count; when nothing remains (or the buffer capacity is zero) it copies
nothing and returns 0.  The result is `(bytes written to the buffer,
return value, updated context)`.  The `size_t` difference
`payload.size() - bytes_read` is the mathematical difference in every
reachable state (the cursor starts at 0 and never passes the end, see
the C10 theorems); a cursor beyond the end would be undefined behaviour
(`memcpy` out of bounds) in the source. -/
def payload_source (size nmemb : Nat) (upload : upload_context) :
    List UInt8 × Nat × upload_context :=
  let buffer_size := size * nmemb
  let copy_size := min (upload.payload.length - upload.bytes_read) buffer_size
  if copy_size ≠ 0 then
    ((upload.payload.drop upload.bytes_read).take copy_size,
     copy_size,
     { upload with bytes_read := upload.bytes_read + copy_size })
  else ([], 0, upload)

/-- A whole sequence of pull-callback invocations with the given
requested chunk sizes, in order: the list of `(chunk, return value)`
pairs and the final context. -/
def run_payload_source (sizes : List Nat) (upload : upload_context) :
    List (List UInt8 × Nat) × upload_context :=
  match sizes with
  | [] => ([], upload)
  | s :: rest =>
      let step := payload_source s 1 upload
      let tail := run_payload_source rest step.2.2
      ((step.1, step.2.1) :: tail.1, tail.2)

/-- The attachment-free email payload assembled by
`quoneq_smtp_client::send_email`: `From`/`To`/`Subject`/`Content-Type`
header lines, each terminated `\r\n`, a blank line, the message, and a
final `\r\n`. -/
def build_payload (email recipient subject : String) (is_html : Bool)
    (message : String) : String :=
  "From: " ++ email ++ "\r\n" ++
  "To: " ++ recipient ++ "\r\n" ++
  "Subject: " ++ subject ++ "\r\n" ++
  "Content-Type: " ++ (if is_html then "text/html" else "text/plain") ++
  "; charset=UTF-8\r\n\r\n" ++
  message ++ "\r\n"

/-! ## Protocol operations

Each operation configures a `CurlRequest`, delegates the exchange to
the environment and interprets the outcome.  Operations whose sources
return `nullptr` (HTTP and Telnet) produce `none`; those that report
initialization failure through the response (FTP) or a boolean (SMTP)
do so here as well.  HTTP operations run the header decoder, whose
`std::stoi` may throw, so their results live in `Except`. -/

/-- `quoneq_http_client::prepare_headers`: one `"key: value"` string
per map entry. -/
def prepare_headers (headers : List (String × String)) : List String :=
  headers.map (fun h => h.1 ++ ": " ++ h.2)

/-- `quoneq_http_client::prepare_cookies`: `"k=v"` pairs joined by
`"; "`. -/
def prepare_cookies (cookies : List (String × String)) : String :=
  cookies.foldl
    (fun cookie_str c =>
      (if cookie_str ≠ "" then cookie_str ++ "; " else cookie_str) ++
        c.1 ++ "=" ++ c.2)
    ""

/-- The request `quoneq_http_client::get` configures. -/
def http_get_request (url : String) (headers cookies : List (String × String))
    (proxy username password : String) : CurlRequest :=
  { url := url
    httpHeaders := prepare_headers headers
    cookieStr := prepare_cookies cookies
    proxy := proxy
    username := username
    password := password }

/-- `quoneq_http_client::get` (src/quoneq/http.cpp): `nullptr` (here
`none`) when `curl_easy_init` fails; otherwise one exchange whose
header lines run through `header_callback`, returning the decoded
response with `errorMessage` set on transport failure and `content`
set on success. -/
def http_get (env : CurlEnv) (url : String)
    (headers cookies : List (String × String))
    (proxy username password : String) :
    Except String (Option HttpResponse) :=
  if env.initOk = false then Except.ok none
  else do
    let out := env.run (http_get_request url headers cookies proxy username password)
    let response ← processHeaderLines out.headerLines {}
    if out.ok = false then
      pure (some { response with errorMessage := out.errorStr })
    else
      pure (some { response with content := out.body })

/-- The request `quoneq_http_client::ping` configures: header-only
(`CURLOPT_NOBODY`), 5-unit timeouts. -/
def ping_request (url proxy username password : String) : CurlRequest :=
  { url := url
    nobody := true
    timeout := 5
    proxy := proxy
    username := username
    password := password }

/-- `quoneq_http_client::ping` (src/quoneq/http.cpp): `none` when the
handle cannot initialize; on a completed exchange the status is the
`CURLINFO_RESPONSE_CODE` value (cast to `uint16_t`) and the content is
the elapsed time; on a transport failure the status is set to 0 and the
content is the transport error text. -/
def ping (env : CurlEnv) (url proxy username password : String) :
    Except String (Option HttpResponse) :=
  if env.initOk = false then Except.ok none
  else do
    let out := env.run (ping_request url proxy username password)
    let response ← processHeaderLines out.headerLines {}
    if out.ok then
      pure (some { response with
                    status := cppNatToUInt16 out.responseCode
                    content := toString out.durationMs ++ " ms" })
    else
      pure (some { response with status := 0, content := out.errorStr })

/-- The fixed local SOCKS proxy of the Tor adapter. -/
def torProxy : String := "socks5h://localhost:9050"

/-- The fixed reachability-check URL of the Tor adapter. -/
def torCheckUrl : String := "https://check.torproject.org"

/-- `quoneq_tor_client::is_tor_running` (src/quoneq/tor.cpp): ping the
fixed check URL through the fixed SOCKS proxy and report whether a
response came back with status exactly 200. -/
def is_tor_running (env : CurlEnv) : Except String Bool := do
  match ← ping env torCheckUrl torProxy "" "" with
  | none => pure false
  | some response => pure (response.status == 200)

/-- `quoneq_telnet_response` (include/quoneq/telnet.hpp). -/
structure TelnetResponse where
  error_message : String := ""
  content : String := ""
deriving Repr, DecidableEq

/-- The request `quoneq_telnet_client::command` configures: the ordered
command list is injected through `CURLOPT_QUOTE`. -/
def telnet_command_request (url : String) (commands : List String)
    (proxy username password : String) (timeout : Int) : CurlRequest :=
  { url := url
    quote := commands
    proxy := proxy
    username := username
    password := password
    timeout := timeout }

/-- `quoneq_telnet_client::command` (src/quoneq/telnet.cpp): `nullptr`
(here `none`) when `curl_easy_init` fails; otherwise one exchange, the
accumulated bytes always stored as `content` and the transport error
text (if any) as `error_message`. -/
def telnet_command (env : CurlEnv) (url : String) (commands : List String)
    (proxy username password : String) (timeout : Int) :
    Option TelnetResponse :=
  if env.initOk = false then none
  else
    let out := env.run (telnet_command_request url commands proxy username password timeout)
    some { error_message := if out.ok = false then out.errorStr else ""
           content := out.body }

/-- The command list `quoneq_telnet_client::script`
(src/quoneq/telnet.cpp) builds from the script file contents: the
`std::getline` loop plus the `!line.empty()` check is exactly newline
splitting with empty segments dropped. -/
def script_lines (fileContents : String) : List String :=
  ((charSplitP (fun c => c = '\n') fileContents.data).map List.asString).filter
    (fun line => line ≠ "")

/-- `quoneq_telnet_client::script` (src/quoneq/telnet.cpp): the local
filesystem is modelled as a map from file name to contents (`none` =
the file cannot be opened).  An unreadable file is reported through
`error_message` without any exchange; otherwise the file is read line
by line, blank lines are skipped, and the remaining lines are passed in
order to `command`. -/
def telnet_script (env : CurlEnv) (fs : String → Option String)
    (url script_filename proxy username password : String) (timeout : Int) :
    Option TelnetResponse :=
  match fs script_filename with
  | none =>
      some { error_message := "unable to open script file: " ++ script_filename }
  | some fileContents =>
      telnet_command env url (script_lines fileContents)
        proxy username password timeout

/-- The request `quoneq_ftp_client::exists` configures: header-only
(`CURLOPT_NOBODY`), no body requested. -/
def ftp_exists_request (ftp_url username password : String) : CurlRequest :=
  { url := ftp_url
    nobody := true
    username := username
    password := password }

/-- `quoneq_ftp_client::exists` (src/quoneq/ftp.cpp): false when the
handle cannot initialize, otherwise exactly the transport success flag
of the header-only exchange — the response code is never read. -/
def ftp_exists (env : CurlEnv) (ftp_url username password : String) : Bool :=
  if env.initOk = false then false
  else (env.run (ftp_exists_request ftp_url username password)).ok

/-- The request `quoneq_ftp_client::remove` configures: a single
`"DELE <path>"` directive with the extracted path. -/
def ftp_remove_request (ftp_url username password : String) : CurlRequest :=
  { url := ftp_url
    nobody := true
    quote := ["DELE " ++ extract_ftp_path ftp_url]
    username := username
    password := password }

/-- `quoneq_ftp_client::remove` (src/quoneq/ftp.cpp). -/
def ftp_remove (env : CurlEnv) (ftp_url username password : String) :
    FtpResponse :=
  if env.initOk = false then { errorMessage := "Failed to initialize curl" }
  else
    let out := env.run (ftp_remove_request ftp_url username password)
    if out.ok = false then { errorMessage := out.errorStr }
    else { responseCode := out.responseCode }

/-- The request `quoneq_ftp_client::move` configures: sequential
`"RNFR <from-path>"` and `"RNTO <to-path>"` directives. -/
def ftp_move_request (ftp_url_from ftp_url_to username password : String) :
    CurlRequest :=
  { url := ftp_url_from
    quote := ["RNFR " ++ extract_ftp_path ftp_url_from,
              "RNTO " ++ extract_ftp_path ftp_url_to]
    username := username
    password := password }

/-- `quoneq_ftp_client::move` (src/quoneq/ftp.cpp). -/
def ftp_move (env : CurlEnv) (ftp_url_from ftp_url_to username password : String) :
    FtpResponse :=
  if env.initOk = false then { errorMessage := "Failed to initialize curl" }
  else
    let out := env.run (ftp_move_request ftp_url_from ftp_url_to username password)
    if out.ok = false then { errorMessage := out.errorStr }
    else { responseCode := out.responseCode }

/-- The request `quoneq_ftp_client::create` configures: a single
`"MKD <path>"` directive. -/
def ftp_create_request (ftp_url username password : String) : CurlRequest :=
  { url := ftp_url
    quote := ["MKD " ++ extract_ftp_path ftp_url]
    username := username
    password := password }

/-- `quoneq_ftp_client::create` (src/quoneq/ftp.cpp). -/
def ftp_create (env : CurlEnv) (ftp_url username password : String) :
    FtpResponse :=
  if env.initOk = false then { errorMessage := "Failed to initialize curl" }
  else
    let out := env.run (ftp_create_request ftp_url username password)
    if out.ok = false then { errorMessage := out.errorStr }
    else { responseCode := out.responseCode }

/-- `quoneq_ftp_client::list_recursive` (src/quoneq/ftp.cpp): run the
recursive helper from an empty accumulator (with the fuel cap of the
embedding). -/
def ftp_list_recursive (env : CurlEnv) (fuel : Nat)
    (ftp_url username password : String) : FtpResponse :=
  { list := list_recursive_helper env username password fuel ftp_url [] }

/-- `quoneq_smtp_client::send_email` (src/quoneq/smtp.cpp): false when
the handle cannot initialize; otherwise one exchange whose request
carries the in-memory payload (attachment-free case) or the MIME file
list, returning the transport success flag. -/
def send_email (env : CurlEnv)
    (smtp_server email password recipient subject message : String)
    (is_html : Bool) (files : List String) : Bool :=
  if env.initOk = false then false
  else
    let req : CurlRequest :=
      { url := smtp_server
        username := email
        password := password
        mailFrom := email
        mailRcpt := [recipient]
        uploadPayload :=
          if files = [] then
            some (build_payload email recipient subject is_html message)
          else none
        mimeFiles := files }
    (env.run req).ok

/-! ## Theorems -/

/-- Reduction of `Except` bind on a success value. -/
theorem exceptBind_ok {α β : Type} (a : α) (f : α → Except String β) :
    (Except.ok a >>= f : Except String β) = f a := rfl

/-- Reduction of `Except` bind on a propagating exception. -/
theorem exceptBind_error {α β : Type} (e : String) (f : α → Except String β) :
    (Except.error e >>= f : Except String β) = Except.error e := rfl

/-- Reduction of `Except` pure. -/
theorem exceptPure {α : Type} (a : α) :
    (pure a : Except String α) = Except.ok a := rfl

/-- C2.  The claim says a status line with fewer than 3
whitespace-separated tokens is ignored without a fault, leaving any
stored status untouched.  The decoder instead feeds the (possibly
missing) second token straight to `std::stoi`: on the one-token status
line `"HTTP/\r\n"` this throws `std::invalid_argument` (the claimed
no-fault behaviour fails), and on the two-token line
`"HTTP/1.1 200\r\n"` the previously stored status code 7 and status
text `"OK"` are overwritten (the claimed left-unchanged behaviour
fails). -/
theorem C2_short_status_line_faults :
    header_callback "HTTP/\r\n" { status := 7, statusType := "OK" } =
      Except.error "stoi: invalid argument" ∧
    header_callback "HTTP/1.1 200\r\n" { status := 7, statusType := "OK" } =
      Except.ok { status := 200, statusType := "" } := by
  constructor <;> rfl

/-- C7.  FTP `exists` is true exactly when the handle initializes and
the header-only exchange completes without a transport-level error: the
request it issues is body-less, the result is independent of everything
in the outcome except the transport success flag (in particular of the
response code, so a server error code for a missing path still yields
true), and a failed handle initialization yields false. -/
theorem C7_ftp_exists_transport_only (env : CurlEnv)
    (ftp_url username password : String) :
    (ftp_exists env ftp_url username password = true ↔
      env.initOk = true ∧
        (env.run (ftp_exists_request ftp_url username password)).ok = true) ∧
    (ftp_exists_request ftp_url username password).nobody = true ∧
    (env.initOk = false → ftp_exists env ftp_url username password = false) ∧
    (∀ env' : CurlEnv, env'.initOk = env.initOk →
      (env'.run (ftp_exists_request ftp_url username password)).ok =
        (env.run (ftp_exists_request ftp_url username password)).ok →
      ftp_exists env' ftp_url username password =
        ftp_exists env ftp_url username password) := by
  refine ⟨?_, rfl, ?_, ?_⟩
  · unfold ftp_exists
    cases h : env.initOk <;> simp [h]
  · intro h
    simp [ftp_exists, h]
  · intro env' h1 h2
    unfold ftp_exists
    rw [h1, h2]

/-- Witness for C7: a transport-successful header-only exchange that
answers with FTP error code 550 still yields `exists = true`. -/
theorem C7_ftp_exists_transport_only_witness :
    ftp_exists
      { initOk := true, run := fun _ => { ok := true, responseCode := 550 } }
      "ftp://host/missing" "" "" = true :=
  (C7_ftp_exists_transport_only
      { initOk := true, run := fun _ => { ok := true, responseCode := 550 } }
      "ftp://host/missing" "" "").1.mpr ⟨rfl, rfl⟩

/-- Splitting at a delimiter that does not occur in the first segment
peels that segment off. -/
theorem charSplitP_append (p : Char → Bool) (xs : List Char) (d : Char)
    (rest : List Char) (hxs : ∀ c ∈ xs, p c = false) (hd : p d = true) :
    charSplitP p (xs ++ d :: rest) = xs :: charSplitP p rest := by
  induction xs with
  | nil => simp [charSplitP, hd]
  | cons c cs ih =>
      have hc : p c = false := hxs c (by simp)
      have ih' := ih (fun c' hmem => hxs c' (by simp [hmem]))
      simp [charSplitP, hc, ih']

/-- Rebuilding a string from its character list. -/
theorem asString_data (s : String) : s.data.asString = s := rfl

/-- C8.  Telnet `script`: an unreadable script file yields a local
failure response whose `error_message` is non-empty, and the result is
then independent of the transport environment (no exchange is
attempted); a readable file is split into its physical lines in file
order (peeling one newline-free line at a time), blank lines are
dropped, and the remaining lines are passed to `command`. -/
theorem C8_telnet_script (env : CurlEnv) (fs : String → Option String)
    (url script_filename proxy username password : String) (timeout : Int) :
    (fs script_filename = none →
      telnet_script env fs url script_filename proxy username password timeout =
        some { error_message :=
                "unable to open script file: " ++ script_filename
               content := "" } ∧
      (∀ resp,
        telnet_script env fs url script_filename proxy username password
            timeout = some resp →
        resp.error_message ≠ "") ∧
      (∀ env' : CurlEnv,
        telnet_script env' fs url script_filename proxy username password
            timeout =
          telnet_script env fs url script_filename proxy username password
            timeout)) ∧
    (∀ fileContents, fs script_filename = some fileContents →
      telnet_script env fs url script_filename proxy username password
          timeout =
        telnet_command env url (script_lines fileContents)
          proxy username password timeout) ∧
    (∀ line rest : String, (∀ c ∈ line.data, c ≠ '\n') →
      script_lines (line ++ "\n" ++ rest) =
        (if line = "" then [] else [line]) ++ script_lines rest) ∧
    (∀ fileContents cmd, cmd ∈ script_lines fileContents → cmd ≠ "") := by
  refine ⟨?_, ?_, ?_, ?_⟩
  · intro h
    refine ⟨by simp [telnet_script, h], ?_, ?_⟩
    · intro resp hresp
      rw [show telnet_script env fs url script_filename proxy username
            password timeout =
          some { error_message :=
                  "unable to open script file: " ++ script_filename
                 content := "" } from by simp [telnet_script, h]] at hresp
      cases hresp
      intro habs
      have hlen := congrArg String.length habs
      rw [String.length_append] at hlen
      have h1 : ("unable to open script file: ").length = 28 := rfl
      have h2 : ("" : String).length = 0 := rfl
      omega
    · intro env'
      simp [telnet_script, h]
  · intro fileContents h
    simp [telnet_script, h]
  · intro line rest hline
    have hdata : (line ++ "\n" ++ rest).data =
        line.data ++ '\n' :: rest.data := by
      simp
    have hsplit := charSplitP_append (fun c => c = '\n') line.data '\n'
      rest.data (fun c hc => by simp [hline c hc]) (by simp)
    by_cases hl : line = ""
    · subst hl
      simp [script_lines, hdata, charSplitP, asString_data,
        show ([] : List Char).asString = "" from rfl]
    · have hl' : line.data.asString ≠ "" := by
        rw [asString_data]; exact hl
      simp [script_lines, hdata, hsplit, List.filter_cons, hl',
        asString_data, hl]
  · intro fileContents cmd hmem
    have := List.of_mem_filter hmem
    simpa using this

/-- Witness for C8: a missing script file produces the local error
response, and a two-line script file with a blank line in between is
forwarded to `command` as those two lines. -/
theorem C8_telnet_script_witness :
    telnet_script
        { initOk := true, run := fun _ => { ok := true, body := "banner" } }
        (fun _ => none) "telnet://h" "s.txt" "" "" "" 30 =
      some { error_message := "unable to open script file: s.txt"
             content := "" } ∧
    telnet_script
        { initOk := true, run := fun _ => { ok := true, body := "banner" } }
        (fun _ => some "ls\n\npwd\n") "telnet://h" "s.txt" "" "" "" 30 =
      telnet_command
        { initOk := true, run := fun _ => { ok := true, body := "banner" } }
        "telnet://h" ["ls", "pwd"] "" "" "" 30 := by
  constructor
  · exact ((C8_telnet_script
      { initOk := true, run := fun _ => { ok := true, body := "banner" } }
      (fun _ => none) "telnet://h" "s.txt" "" "" "" 30).1 rfl).1
  · have h := ((C8_telnet_script
      { initOk := true, run := fun _ => { ok := true, body := "banner" } }
      (fun _ => some "ls\n\npwd\n") "telnet://h" "s.txt" "" "" "" 30).2.1)
      "ls\n\npwd\n" rfl
    rw [h]
    rfl

/-- C9.  `extract_ftp_path` returns the suffix starting at the first
`'/'` found after the first `"ftp://"` occurrence, and the empty string
when either the scheme marker or the slash is absent (witnessed
concretely on `"http://host/x"` and `"ftp://host"`); `remove`, `move`
and `create` splice the extracted path directly into their `DELE`,
`RNFR`/`RNTO` and `MKD` directives, so a URL with no extractable path
produces a directive with an empty path argument while the exchange is
still issued (no local failure: with a transport-successful exchange
the response carries no error text). -/
theorem C9_extract_ftp_path_and_directives (env : CurlEnv)
    (ftp_url ftp_url_to username password : String) :
    (cppFind ftp_url "ftp://" = none → extract_ftp_path ftp_url = "") ∧
    (∀ pos, cppFind ftp_url "ftp://" = some pos →
      cppFindChar ftp_url '/' (pos + 6) = none →
      extract_ftp_path ftp_url = "") ∧
    (∀ pos pos', cppFind ftp_url "ftp://" = some pos →
      cppFindChar ftp_url '/' (pos + 6) = some pos' →
      extract_ftp_path ftp_url = cppSubstrFrom ftp_url pos') ∧
    extract_ftp_path "http://host/x" = "" ∧
    extract_ftp_path "ftp://host" = "" ∧
    (ftp_remove_request ftp_url username password).quote =
      ["DELE " ++ extract_ftp_path ftp_url] ∧
    (ftp_move_request ftp_url ftp_url_to username password).quote =
      ["RNFR " ++ extract_ftp_path ftp_url,
       "RNTO " ++ extract_ftp_path ftp_url_to] ∧
    (ftp_create_request ftp_url username password).quote =
      ["MKD " ++ extract_ftp_path ftp_url] ∧
    (extract_ftp_path ftp_url = "" →
      (ftp_remove_request ftp_url username password).quote = ["DELE "] ∧
      (ftp_create_request ftp_url username password).quote = ["MKD "]) ∧
    (env.initOk = true →
      (env.run (ftp_remove_request ftp_url username password)).ok = true →
      (ftp_remove env ftp_url username password).errorMessage = "") := by
  refine ⟨?_, ?_, ?_, by rfl, by rfl, rfl, rfl, rfl, ?_, ?_⟩
  · intro h
    simp [extract_ftp_path, h]
  · intro pos h1 h2
    simp [extract_ftp_path, h1, h2]
  · intro pos pos' h1 h2
    simp [extract_ftp_path, h1, h2]
  · intro h
    simp [ftp_remove_request, ftp_create_request, h]
  · intro h1 h2
    simp [ftp_remove, h1, h2]

/-- Accumulating words behind single spaces is `" "`-intercalation of
the first word and the rest. -/
theorem foldl_space_intercalate (xs : List String) (x : String) :
    xs.foldl (fun acc t => acc ++ " " ++ t) x =
      String.intercalate " " (x :: xs) := by
  show _ = String.intercalate.go x " " xs
  induction xs generalizing x with
  | nil => rfl
  | cons y ys ih => simp only [List.foldl, String.intercalate.go, ih]

/-- A left fold whose step appends a per-element contribution is the
concatenation of those contributions. -/
theorem foldl_flatMap {α β : Type} (step : List β → α → List β)
    (g : α → List β) (hstep : ∀ acc a, step acc a = acc ++ g a) :
    ∀ (l : List α) (acc : List β),
      l.foldl step acc = acc ++ l.flatMap g := by
  intro l
  induction l with
  | nil => intro acc; simp
  | cons a as ih =>
      intro acc
      simp only [List.foldl_cons, List.flatMap_cons, hstep, ih,
        List.append_assoc]

/-- The recursive traversal of `list_recursive_helper` refines the
spec-side depth-first traversal `dfs_spec` of the listing function the
environment induces: the helper extends its accumulator exactly by the
depth-first path list. -/
theorem list_recursive_helper_spec (env : CurlEnv)
    (username password : String) :
    ∀ (fuel : Nat) (ftp_url : String) (accum : List String),
      list_recursive_helper env username password fuel ftp_url accum =
        accum ++
          dfs_spec (fun target => get_list_detail env target username password)
            fuel ftp_url := by
  intro fuel
  induction fuel with
  | zero => intro url accum; simp [list_recursive_helper, dfs_spec]
  | succ f ih =>
      intro url accum
      simp only [list_recursive_helper, dfs_spec]
      refine foldl_flatMap _ _ ?_ _ accum
      intro acc line
      by_cases hskip : (parse_ftp_list_line line).2 = "." ∨
          (parse_ftp_list_line line).2 = ".." ∨
          (parse_ftp_list_line line).2 = ""
      · simp [hskip]
      · by_cases hdir : (parse_ftp_list_line line).1 = true
        · simp [hskip, hdir, ih, List.append_assoc]
        · simp [hskip, hdir]

/-- Every path the depth-first traversal produces is a retained entry:
a base URL joined to a name that is neither `"."` nor `".."` nor
empty. -/
theorem dfs_spec_mem (listing : String → List String) :
    ∀ (fuel : Nat) (url path : String),
      path ∈ dfs_spec listing fuel url →
      ∃ base name, ¬(name = "." ∨ name = ".." ∨ name = "") ∧
        path = ftp_join base name := by
  intro fuel
  induction fuel with
  | zero => intro url path h; simp [dfs_spec] at h
  | succ f ih =>
      intro url path h
      simp only [dfs_spec, List.mem_flatMap] at h
      obtain ⟨line, hline, hpath⟩ := h
      by_cases hskip : (parse_ftp_list_line line).2 = "." ∨
          (parse_ftp_list_line line).2 = ".." ∨
          (parse_ftp_list_line line).2 = ""
      · simp [hskip] at hpath
      · rw [if_neg hskip] at hpath
        rcases List.mem_cons.mp hpath with hpath' | hpath'
        · exact ⟨url, (parse_ftp_list_line line).2, hskip, hpath'⟩
        · by_cases hdir : (parse_ftp_list_line line).1 = true
          · rw [if_pos hdir] at hpath'
            exact ih _ _ hpath'
          · rw [if_neg hdir] at hpath'
            simp at hpath'

/-- C3.  `parse_ftp_list_line` discards the empty line as `(false,
"")`; on every non-empty line the directory flag is exactly "first
character is `'d'`"; with at least 9 whitespace tokens the name is
token 8 and all later tokens joined by single spaces; with 1 to 8
tokens the name is the last token; and no caller retains a discarded
entry — every path the recursive traversal accumulates is a base URL
joined to a retained (non-`.`/`..`/non-empty) name. -/
theorem C3_parse_listing_line :
    parse_ftp_list_line "" = (false, "") ∧
    (∀ line : String, line ≠ "" →
      ((parse_ftp_list_line line).1 = true ↔ line.front = 'd')) ∧
    (∀ line : String, 9 ≤ (cppTokens line).length →
      (parse_ftp_list_line line).2 =
        String.intercalate " " ((cppTokens line).drop 8)) ∧
    (∀ line : String, 1 ≤ (cppTokens line).length →
      (cppTokens line).length ≤ 8 →
      (parse_ftp_list_line line).2 = (cppTokens line).getLastD "") ∧
    (∀ (env : CurlEnv) (username password : String) (fuel : Nat)
        (ftp_url path : String),
      path ∈ list_recursive_helper env username password fuel ftp_url [] →
      ∃ base name, ¬(name = "." ∨ name = ".." ∨ name = "") ∧
        path = ftp_join base name) := by
  refine ⟨rfl, ?_, ?_, ?_, ?_⟩
  · intro line hne
    simp [parse_ftp_list_line, hne]
  · intro line h9
    have hne : line ≠ "" := by
      intro he
      rw [he, show cppTokens "" = [] from rfl] at h9
      simp at h9
    have h8 : 8 < (cppTokens line).length := by omega
    have hg : (cppTokens line).getD 8 "" = (cppTokens line).get ⟨8, h8⟩ := by
      simp [List.getD_eq_getElem?_getD, List.getElem?_eq_getElem h8]
    have hdrop : (cppTokens line).drop 8 =
        (cppTokens line).get ⟨8, h8⟩ :: (cppTokens line).drop 9 := by
      simp only [List.get_eq_getElem]
      exact List.drop_eq_getElem_cons h8
    simp only [parse_ftp_list_line, if_neg hne, h9, if_pos]
    rw [foldl_space_intercalate, hg, hdrop]
  · intro line h1 h8
    have hne : line ≠ "" := by
      intro he
      rw [he, show cppTokens "" = [] from rfl] at h1
      simp at h1
    have h9 : ¬ 9 ≤ (cppTokens line).length := by omega
    have hnil : cppTokens line ≠ [] := by
      intro he
      rw [he] at h1
      simp at h1
    simp [parse_ftp_list_line, hne, h9, hnil]
  · intro env username password fuel ftp_url path hmem
    rw [list_recursive_helper_spec env username password] at hmem
    simp only [List.nil_append] at hmem
    exact dfs_spec_mem _ fuel ftp_url path hmem

/-- Witness for C3: a 10-token directory line with a space in its name
parses to the flag `true` and the space-joined name, a 2-token line
falls back to its last token, and a path produced by a concrete
traversal decomposes into base and retained name. -/
theorem C3_parse_listing_line_witness :
    (parse_ftp_list_line
      "drwxr-xr-x 2 u g 4096 Jan 01 00:00 my dir").1 = true ∧
    (parse_ftp_list_line "drwxr-xr-x 2 u g 4096 Jan 01 00:00 my dir").2 =
      String.intercalate " "
        ((cppTokens "drwxr-xr-x 2 u g 4096 Jan 01 00:00 my dir").drop 8) ∧
    (parse_ftp_list_line "abc def").2 = (cppTokens "abc def").getLastD "" ∧
    (∃ base name, ¬(name = "." ∨ name = ".." ∨ name = "") ∧
      "/x/f" = ftp_join base name) := by
  refine ⟨?_, ?_, ?_, ?_⟩
  · exact (C3_parse_listing_line.2.1
      "drwxr-xr-x 2 u g 4096 Jan 01 00:00 my dir" (by decide)).mpr rfl
  · exact C3_parse_listing_line.2.2.1
      "drwxr-xr-x 2 u g 4096 Jan 01 00:00 my dir" (by decide)
  · exact C3_parse_listing_line.2.2.2.1 "abc def" (by decide) (by decide)
  · exact C3_parse_listing_line.2.2.2.2
      { initOk := true
        run := fun _ =>
          { ok := true, body := "-rw-r--r-- 1 u g 1 Jan 01 00:00 f\n" } }
      "" "" 1 "/x" "/x/f" (by decide)

/-- A synthetic detailed-listing server realizing the spec's recursive
example: directory `/a` holds `.`/`..` entries, the file `f` and the
directory `b`, and `/a/b` holds the file `g`. -/
def exampleListingEnv : CurlEnv :=
  { initOk := true
    run := fun req =>
      { ok := true
        body :=
          if req.url = "/a" then
            "drwxr-xr-x 2 u g 4096 Jan 01 00:00 .\n" ++
            "drwxr-xr-x 2 u g 4096 Jan 01 00:00 ..\n" ++
            "-rw-r--r-- 1 u g 10 Jan 01 00:00 f\n" ++
            "drwxr-xr-x 2 u g 4096 Jan 01 00:00 b\n"
          else if req.url = "/a/b" then
            "-rw-r--r-- 1 u g 10 Jan 01 00:00 g\n"
          else "" } }

/-- C4.  `list_recursive_helper` extends its accumulator with exactly
the depth-first path list `dfs_spec` of the server's listing function —
entries named `"."`, `".."` or empty contribute nothing, every retained
entry contributes the current URL joined to its name with exactly one
`'/'` (the separator is added only when the URL does not already end
with one, witnessed by the two join equations), and a directory's
subtree appears immediately after its own path, before the next sibling
line.  On the spec's synthetic two-level server it yields
`["/a/f", "/a/b", "/a/b/g"]` with the `.`/`..` entries excluded. -/
theorem C4_list_recursive_depth_first :
    (∀ (env : CurlEnv) (username password : String) (fuel : Nat)
        (ftp_url : String) (accum : List String),
      list_recursive_helper env username password fuel ftp_url accum =
        accum ++
          dfs_spec (fun target => get_list_detail env target username password)
            fuel ftp_url) ∧
    ftp_join "/a" "f" = "/a/f" ∧
    ftp_join "/a/" "f" = "/a/f" ∧
    list_recursive_helper exampleListingEnv "" "" 5 "/a" [] =
      ["/a/f", "/a/b", "/a/b/g"] :=
  ⟨fun env username password => list_recursive_helper_spec env username
    password, rfl, rfl, rfl⟩

/-- C6.  `is_tor_running` is true exactly when the probe ping — issued
against the fixed reachability-check URL through the fixed local SOCKS
proxy — yields a response whose status equals 200; it is false when the
probe cannot start (handle initialization failure), when the transport
exchange fails (in which case `ping` sets the status to 0), and for any
status other than 200, and it is true whenever the exchange completes
with response code 200. -/
theorem C6_is_tor_running_status_200 (env : CurlEnv) :
    (is_tor_running env = Except.ok true ↔
      (∃ r, ping env torCheckUrl torProxy "" "" = Except.ok (some r) ∧
        r.status = 200)) ∧
    (∀ r, ping env torCheckUrl torProxy "" "" = Except.ok (some r) →
      r.status ≠ 200 → is_tor_running env = Except.ok false) ∧
    (env.initOk = false → is_tor_running env = Except.ok false) ∧
    (env.initOk = true →
      ∀ r, processHeaderLines
          (env.run (ping_request torCheckUrl torProxy "" "")).headerLines {} =
          Except.ok r →
        (env.run (ping_request torCheckUrl torProxy "" "")).ok = false →
        ∃ r', ping env torCheckUrl torProxy "" "" = Except.ok (some r') ∧
          r'.status = 0 ∧ is_tor_running env = Except.ok false) ∧
    (env.initOk = true →
      ∀ r, processHeaderLines
          (env.run (ping_request torCheckUrl torProxy "" "")).headerLines {} =
          Except.ok r →
        (env.run (ping_request torCheckUrl torProxy "" "")).ok = true →
        cppNatToUInt16
            (env.run (ping_request torCheckUrl torProxy "" "")).responseCode
          = 200 →
        is_tor_running env = Except.ok true) := by
  refine ⟨?_, ?_, ?_, ?_, ?_⟩
  · constructor
    · intro h
      rcases hp : ping env torCheckUrl torProxy "" "" with e | o
      · rw [show is_tor_running env = Except.error e from by
          simp [is_tor_running, hp, exceptBind_error]] at h
        cases h
      · cases o with
        | none =>
            rw [show is_tor_running env = Except.ok false from by
              simp [is_tor_running, hp, exceptBind_ok, exceptPure]] at h
            cases h
        | some r =>
            rw [show is_tor_running env = Except.ok (r.status == 200) from by
              simp [is_tor_running, hp, exceptBind_ok, exceptPure]] at h
            refine ⟨r, rfl, ?_⟩
            have := congrArg (fun x : Except String Bool =>
              match x with | Except.ok b => b | _ => false) h
            simpa using this
    · rintro ⟨r, hp, hr⟩
      simp [is_tor_running, hp, exceptBind_ok, exceptPure, hr]
  · intro r hp hr
    simp [is_tor_running, hp, exceptBind_ok, exceptPure, hr]
  · intro h
    have hp : ping env torCheckUrl torProxy "" "" = Except.ok none := by
      simp [ping, h]
    simp [is_tor_running, hp, exceptBind_ok, exceptPure]
  · intro hinit r hproc hok
    have hp : ping env torCheckUrl torProxy "" "" =
        Except.ok (some { r with
          status := 0
          content := (env.run (ping_request torCheckUrl torProxy "" "")).errorStr }) := by
      simp [ping, hinit, hproc, hok, exceptBind_ok, exceptPure]
    exact ⟨_, hp, rfl, by
      simp [is_tor_running, hp, exceptBind_ok, exceptPure]⟩
  · intro hinit r hproc hok hcode
    have hp : ping env torCheckUrl torProxy "" "" =
        Except.ok (some { r with
          status := cppNatToUInt16
            (env.run (ping_request torCheckUrl torProxy "" "")).responseCode
          content := toString
              (env.run (ping_request torCheckUrl torProxy "" "")).durationMs
            ++ " ms" }) := by
      simp [ping, hinit, hproc, hok, exceptBind_ok, exceptPure]
    simp [is_tor_running, hp, exceptBind_ok, exceptPure, hcode]

/-- Witness for C6: an environment whose probe exchange completes with
response code 200 makes `is_tor_running` true, and one that fails at
the transport level makes it false. -/
theorem C6_is_tor_running_status_200_witness :
    is_tor_running
        { initOk := true, run := fun _ => { ok := true, responseCode := 200 } } =
      Except.ok true ∧
    is_tor_running
        { initOk := true
          run := fun _ => { ok := false, errorStr := "Timeout was reached" } } =
      Except.ok false := by
  constructor
  · exact (C6_is_tor_running_status_200
      { initOk := true, run := fun _ => { ok := true, responseCode := 200 } }
      ).2.2.2.2 rfl {} rfl rfl rfl
  · have h := (C6_is_tor_running_status_200
      { initOk := true
        run := fun _ => { ok := false, errorStr := "Timeout was reached" } }
      ).2.2.2.1 rfl {} rfl rfl
    obtain ⟨r', hping, hst, hfalse⟩ := h
    exact hfalse

/-- One pull-callback invocation, in closed form: it copies the
`min(remaining, requested)` bytes at the cursor, returns that count and
advances the cursor by exactly that amount, leaving the payload
untouched. -/
theorem payload_source_eq (size nmemb : Nat) (u : upload_context) :
    payload_source size nmemb u =
      ((u.payload.drop u.bytes_read).take
          (min (u.payload.length - u.bytes_read) (size * nmemb)),
        min (u.payload.length - u.bytes_read) (size * nmemb),
        upload_context.mk
          (u.bytes_read + min (u.payload.length - u.bytes_read) (size * nmemb))
          u.payload) := by
  unfold payload_source
  by_cases h : min (u.payload.length - u.bytes_read) (size * nmemb) = 0
  · simp [h]
  · simp [h]

/-- A run of pull-callback invocations keeps the payload, drives the
cursor to `min(length, start + requested total)`, and emits chunks that
concatenate to exactly the traversed payload segment. -/
theorem run_payload_source_spec (sizes : List Nat) :
    ∀ u : upload_context, u.bytes_read ≤ u.payload.length →
      (run_payload_source sizes u).2.payload = u.payload ∧
      (run_payload_source sizes u).2.bytes_read =
        min u.payload.length (u.bytes_read + sizes.sum) ∧
      ((run_payload_source sizes u).1.map Prod.fst).flatten =
        (u.payload.drop u.bytes_read).take
          ((run_payload_source sizes u).2.bytes_read - u.bytes_read) := by
  induction sizes with
  | nil =>
      intro u hc
      refine ⟨rfl, ?_, ?_⟩
      · simp [run_payload_source, Nat.min_eq_right hc]
      · simp [run_payload_source]
  | cons s rest ih =>
      intro u hc
      rw [run_payload_source]
      simp only [payload_source_eq, Nat.mul_one]
      set k := min (u.payload.length - u.bytes_read) s with hk
      have hc' : u.bytes_read + k ≤ u.payload.length := by omega
      obtain ⟨hp, hb, hf⟩ :=
        ih (upload_context.mk (u.bytes_read + k) u.payload) (by simpa using hc')
      simp only at hp hb hf
      refine ⟨hp, ?_, ?_⟩
      · rw [hb]
        simp only [List.sum_cons]
        omega
      · simp only [List.map_cons, List.flatten_cons, hf, hb]
        rw [show u.payload.drop (u.bytes_read + k) =
            (u.payload.drop u.bytes_read).drop k by
          rw [List.drop_drop]]
        rw [← List.take_add]
        congr 1
        omega

/-- Running a concatenated size sequence is running the two halves in
order. -/
theorem run_payload_source_append (a b : List Nat) :
    ∀ u : upload_context,
      run_payload_source (a ++ b) u =
        ((run_payload_source a u).1 ++
            (run_payload_source b (run_payload_source a u).2).1,
          (run_payload_source b (run_payload_source a u).2).2) := by
  induction a with
  | nil => intro u; simp [run_payload_source]
  | cons s rest ih => intro u; simp [run_payload_source, ih]

/-- The cursor never moves backwards over a run. -/
theorem run_payload_source_mono (sizes : List Nat) :
    ∀ u : upload_context,
      u.bytes_read ≤ (run_payload_source sizes u).2.bytes_read := by
  induction sizes with
  | nil => intro u; simp [run_payload_source]
  | cons s rest ih =>
      intro u
      rw [run_payload_source]
      simp only [payload_source_eq]
      exact le_trans (Nat.le_add_right _ _)
        (ih (upload_context.mk _ u.payload))

/-- Once the cursor has reached the payload end, an invocation copies
nothing, returns 0 and leaves the context unchanged. -/
theorem payload_source_at_end (size nmemb : Nat) (u : upload_context)
    (h : u.bytes_read = u.payload.length) :
    payload_source size nmemb u = ([], 0, u) := by
  unfold payload_source
  simp [h]

/-- Once the cursor has reached the payload end, every invocation of a
whole subsequent run returns 0 with an empty chunk, and the context
never changes again. -/
theorem run_payload_source_at_end (sizes : List Nat) (u : upload_context)
    (h : u.bytes_read = u.payload.length) :
    (run_payload_source sizes u).2 = u ∧
    ∀ pr ∈ (run_payload_source sizes u).1, pr.2 = 0 ∧ pr.1 = [] := by
  induction sizes with
  | nil => simp [run_payload_source]
  | cons s rest ih =>
      rw [run_payload_source]
      simp only [payload_source_at_end s 1 u h]
      obtain ⟨h1, h2⟩ := ih
      refine ⟨h1, ?_⟩
      intro pr hpr
      rcases List.mem_cons.mp hpr with hpr' | hpr'
      · rw [hpr']
        exact ⟨rfl, rfl⟩
      · exact h2 pr hpr'

/-- C5.  The attachment-free email payload is the `\r\n`-intercalation
of the four header lines, one blank line and the message body, followed
by a final `\r\n`; each pull-callback invocation copies
`min(remaining, requested chunk)` bytes at the cursor and advances the
cursor by exactly that amount; an invocation at the payload end returns
0 with no bytes; and for any payload and any chunk-size sequence that
requests at least the payload length in total, concatenating the
returned chunks in cursor order reconstructs the payload
byte-for-byte. -/
theorem C5_email_payload_streaming :
    (∀ (email recipient subject message : String) (is_html : Bool),
      build_payload email recipient subject is_html message =
        String.intercalate "\r\n"
          ["From: " ++ email,
           "To: " ++ recipient,
           "Subject: " ++ subject,
           "Content-Type: " ++
             (if is_html then "text/html" else "text/plain") ++
             "; charset=UTF-8",
           "",
           message] ++ "\r\n") ∧
    (∀ (size nmemb : Nat) (u : upload_context),
      payload_source size nmemb u =
        ((u.payload.drop u.bytes_read).take
            (min (u.payload.length - u.bytes_read) (size * nmemb)),
          min (u.payload.length - u.bytes_read) (size * nmemb),
          upload_context.mk
            (u.bytes_read +
              min (u.payload.length - u.bytes_read) (size * nmemb))
            u.payload)) ∧
    (∀ (size nmemb : Nat) (u : upload_context),
      u.bytes_read = u.payload.length →
      payload_source size nmemb u = ([], 0, u)) ∧
    (∀ (p : List UInt8) (sizes : List Nat), p.length ≤ sizes.sum →
      ((run_payload_source sizes (upload_context.mk 0 p)).1.map
        Prod.fst).flatten = p) := by
  refine ⟨?_, payload_source_eq, payload_source_at_end, ?_⟩
  · intro email recipient subject message is_html
    simp only [build_payload]
    rw [show ("; charset=UTF-8\r\n\r\n" : String) =
        "; charset=UTF-8" ++ "\r\n" ++ "\r\n" from rfl]
    simp only [String.intercalate, String.intercalate.go,
      String.append_assoc, String.append_empty]
  · intro p sizes hlen
    obtain ⟨hp, hb, hf⟩ :=
      run_payload_source_spec sizes (upload_context.mk 0 p) (by simp)
    rw [hf, hb]
    simp [Nat.min_eq_left hlen]

/-- Witness for C5: an invocation at the end of a 3-byte payload
returns 0, and streaming the payload `[7, 8, 9]` in chunks of 2
reconstructs it. -/
theorem C5_email_payload_streaming_witness :
    payload_source 4 1 (upload_context.mk 3 [7, 8, 9]) =
      ([], 0, upload_context.mk 3 [7, 8, 9]) ∧
    ((run_payload_source [2, 2] (upload_context.mk 0 [7, 8, 9])).1.map
      Prod.fst).flatten = [7, 8, 9] := by
  constructor
  · exact C5_email_payload_streaming.2.2.1 4 1
      (upload_context.mk 3 [7, 8, 9]) (by decide)
  · exact C5_email_payload_streaming.2.2.2 [7, 8, 9] [2, 2] (by decide)

/-- C10.  Pull-callback cursor invariants: a single invocation never
moves the cursor backwards and returns exactly the number of bytes it
copied; over any run starting from cursor 0 the cursor after any prefix
of the requests is below the cursor after the full run and never
exceeds the payload length; and once the cursor equals the payload
length every subsequent invocation returns 0 and leaves the context
unchanged. -/
theorem C10_payload_source_cursor_invariants :
    (∀ (size nmemb : Nat) (u : upload_context),
      u.bytes_read ≤ (payload_source size nmemb u).2.2.bytes_read ∧
      (payload_source size nmemb u).2.1 =
        (payload_source size nmemb u).1.length) ∧
    (∀ (p : List UInt8) (sizes₁ sizes₂ : List Nat),
      (run_payload_source sizes₁ (upload_context.mk 0 p)).2.bytes_read ≤
        (run_payload_source (sizes₁ ++ sizes₂)
          (upload_context.mk 0 p)).2.bytes_read ∧
      (run_payload_source sizes₁ (upload_context.mk 0 p)).2.bytes_read ≤
        p.length) ∧
    (∀ (u : upload_context) (sizes : List Nat),
      u.bytes_read = u.payload.length →
      (run_payload_source sizes u).2 = u ∧
      ∀ pr ∈ (run_payload_source sizes u).1, pr.2 = 0) := by
  refine ⟨?_, ?_, ?_⟩
  · intro size nmemb u
    constructor
    · simp only [payload_source_eq]
      exact Nat.le_add_right _ _
    · simp only [payload_source_eq, List.length_take, List.length_drop]
      omega
  · intro p sizes₁ sizes₂
    constructor
    · rw [run_payload_source_append]
      exact run_payload_source_mono sizes₂ _
    · obtain ⟨hp, hb, hf⟩ :=
        run_payload_source_spec sizes₁ (upload_context.mk 0 p) (by simp)
      rw [hb]
      simp
  · intro u sizes h
    obtain ⟨h1, h2⟩ := run_payload_source_at_end sizes u h
    exact ⟨h1, fun pr hpr => (h2 pr hpr).1⟩

/-- Witness for C10: on the 3-byte payload `[5, 6, 7]` a prefix of the
requests reaches a cursor below the full run's cursor and below the
payload length, and a context already at the end keeps returning 0. -/
theorem C10_payload_source_cursor_invariants_witness :
    (run_payload_source [2] (upload_context.mk 0 [5, 6, 7])).2.bytes_read ≤
      (run_payload_source ([2] ++ [2])
        (upload_context.mk 0 [5, 6, 7])).2.bytes_read ∧
    (run_payload_source [2]
      (upload_context.mk 0 [5, 6, 7])).2.bytes_read ≤
      ([5, 6, 7] : List UInt8).length ∧
    ∀ pr ∈ (run_payload_source [9, 9] (upload_context.mk 3 [5, 6, 7])).1,
      pr.2 = 0 := by
  refine ⟨?_, ?_, ?_⟩
  · exact (C10_payload_source_cursor_invariants.2.1 [5, 6, 7] [2] [2]).1
  · exact (C10_payload_source_cursor_invariants.2.1 [5, 6, 7] [2] [2]).2
  · exact (C10_payload_source_cursor_invariants.2.2
      (upload_context.mk 3 [5, 6, 7]) [9, 9] (by decide)).2

/-- C1 counterexample.  The claim says no operation ever returns a
null/absent result and that a failed transport-handle initialization
yields a `code = 0` / non-empty `errorText` response.  HTTP `get`
(src/quoneq/http.cpp line 137–139) instead returns `nullptr` when
`curl_easy_init` fails: in an environment whose handle initialization
fails, no response exists. -/
theorem C1_counterexample_null_on_init_failure :
    ¬ (∀ (env : CurlEnv) (url : String),
        ∃ r, http_get env url [] [] "" "" "" = Except.ok (some r)) := by
  intro h
  obtain ⟨r, hr⟩ :=
    h { initOk := false, run := fun _ => { ok := true } } "http://example.com"
  rw [show http_get { initOk := false, run := fun _ => { ok := true } }
      "http://example.com" [] [] "" "" "" = Except.ok none from by
    simp [http_get]] at hr
  cases hr

/-- C1 amended.  The claim holds for the FTP operations (on handle
initialization failure they return a response with `responseCode = 0`
and non-empty `errorMessage`) and for SMTP (a boolean, false); but the
HTTP, Telnet and Tor operations return an absent result (`nullptr`) on
handle initialization failure.  Whenever the handle initializes, each
embedded operation produces exactly one result (for HTTP operations,
provided the header decoder does not itself fault). -/
theorem C1_amended_totality (env : CurlEnv) (fs : String → Option String)
    (url urlTo proxy username password : String)
    (headers cookies : List (String × String)) (commands : List String)
    (timeout : Int)
    (server email pass rcpt subj msg : String) (is_html : Bool)
    (files : List String) :
    (env.initOk = false →
      http_get env url headers cookies proxy username password =
        Except.ok none ∧
      ping env url proxy username password = Except.ok none ∧
      telnet_command env url commands proxy username password timeout =
        none ∧
      send_email env server email pass rcpt subj msg is_html files = false ∧
      ftp_exists env url username password = false ∧
      (ftp_remove env url username password).errorMessage ≠ "" ∧
      (ftp_remove env url username password).responseCode = 0 ∧
      (ftp_move env url urlTo username password).errorMessage ≠ "" ∧
      (ftp_move env url urlTo username password).responseCode = 0 ∧
      (ftp_create env url username password).errorMessage ≠ "" ∧
      (ftp_create env url username password).responseCode = 0) ∧
    (env.initOk = true →
      (∀ r, processHeaderLines
          (env.run (http_get_request url headers cookies proxy username
            password)).headerLines {} = Except.ok r →
        ∃ resp, http_get env url headers cookies proxy username password =
          Except.ok (some resp)) ∧
      (telnet_command env url commands proxy username password
        timeout).isSome = true ∧
      (∀ fileContents, fs url = some fileContents →
        (telnet_script env fs urlTo url proxy username password
          timeout).isSome = true)) := by
  constructor
  · intro h
    refine ⟨by simp [http_get, h], by simp [ping, h],
      by simp [telnet_command, h], by simp [send_email, h],
      by simp [ftp_exists, h], ?_, ?_, ?_, ?_, ?_, ?_⟩ <;>
      simp [ftp_remove, ftp_move, ftp_create, h]
  · intro h
    refine ⟨?_, ?_, ?_⟩
    · intro r hr
      cases hok : (env.run (http_get_request url headers cookies proxy
          username password)).ok with
      | false =>
          exact ⟨{ r with errorMessage :=
              (env.run (http_get_request url headers cookies proxy username
                password)).errorStr },
            by simp [http_get, h, hr, hok, exceptBind_ok, exceptPure]⟩
      | true =>
          exact ⟨{ r with content :=
              (env.run (http_get_request url headers cookies proxy username
                password)).body },
            by simp [http_get, h, hr, hok, exceptBind_ok, exceptPure]⟩
    · simp [telnet_command, h]
    · intro fileContents hf
      simp [telnet_script, telnet_command, hf, h]

/-- Witness for C1 (amended): with a failing handle initialization the
FTP remove reports the initialization error while HTTP get yields an
absent result; with a successful initialization HTTP get yields a
response. -/
theorem C1_amended_totality_witness :
    (ftp_remove { initOk := false, run := fun _ => { ok := true } }
        "ftp://h/x" "" "").errorMessage ≠ "" ∧
    http_get { initOk := false, run := fun _ => { ok := true } }
        "http://h" [] [] "" "" "" = Except.ok none ∧
    (∃ resp, http_get { initOk := true, run := fun _ => { ok := true } }
        "http://h" [] [] "" "" "" = Except.ok (some resp)) := by
  have hf := C1_amended_totality
    { initOk := false, run := fun _ => { ok := true } } (fun _ => none)
    "ftp://h/x" "x" "" "" "" [] [] [] 0 "" "" "" "" "" "" false []
  have ht := C1_amended_totality
    { initOk := true, run := fun _ => { ok := true } } (fun _ => none)
    "http://h" "x" "" "" "" [] [] [] 0 "" "" "" "" "" "" false []
  refine ⟨(hf.1 rfl).2.2.2.2.2.1, ?_, (ht.2 rfl).1 {} rfl⟩
  have hg := C1_amended_totality
    { initOk := false, run := fun _ => { ok := true } } (fun _ => none)
    "http://h" "x" "" "" "" [] [] [] 0 "" "" "" "" "" "" false []
  exact (hg.1 rfl).1

/-- Witness for C9: a URL without an `"ftp://"` marker yields the bare
`"DELE "` directive, and the operation still completes through the
transport with no error text. -/
theorem C9_extract_ftp_path_and_directives_witness :
    (ftp_remove_request "http://host/x" "" "").quote = ["DELE "] ∧
    (ftp_remove { initOk := true, run := fun _ => { ok := true } }
        "http://host/x" "" "").errorMessage = "" := by
  have h := C9_extract_ftp_path_and_directives
    { initOk := true, run := fun _ => { ok := true } } "http://host/x" "x" "" ""
  exact ⟨(h.2.2.2.2.2.2.2.2.1 (by rfl)).1, h.2.2.2.2.2.2.2.2.2 rfl rfl⟩

end Quoneq
